import Mathlib

/-!
Verification of `src/gpmf/orientation.py` (pygpmf orientation telemetry core).

Embedding conventions:
* Numeric payload values (Python ints / floats / numpy arrays) are modelled as
  rationals (`ℚ`); the Python expression `raw * 1.0 / scale` performs true
  (floating-point) division, which exact rational division models faithfully
  for the truncation questions at stake.  Division by zero is total in `ℚ`
  (numpy emits infinities without raising, so the decode still succeeds there).
* A `KVLItem` carries a fourcc key and a typed payload.  Payloads occurring in
  an orientation block are a numeric scalar (`SCAL`), a vector of numeric
  samples (`STMP`), or a list of 4-component quaternion samples (`IORI`/`CORI`).
  Feeding a record whose payload shape does not fit the operation applied to it
  (e.g. iterating quaternions out of a scalar) fails in Python with a dynamic
  `TypeError`; the embedding models this as `DecodeError.typeError` at the
  point where the shape is first consumed.
* `z, y, x = rotation.T` on a numpy array built from zero samples raises a
  `ValueError` (unpacking 0 rows into 3 names); modelled as
  `DecodeError.valueError`, checked exactly where the unpacking happens:
  after the rescale/conversion and before the `STMP` lookup.
* Python `KeyError` on `block_dict[...]` is `DecodeError.missingField`.
* The scipy primitive `lambda q: R.from_quat(q).as_euler('zyx', degrees=True)`
  is external to the repository; decoders take it as a function parameter
  `rot : RotPrim` mapping one quaternion to its `(z, y, x)` Euler triple.
* Python generators are modelled as the list of yielded values.
-/

namespace GPMF

/-- A typed KLV payload: a numeric scalar, a vector of numeric samples, or an
ordered sequence of 4-component quaternion samples. -/
inductive Payload where
  | scalar (v : ℚ)
  | vector (vs : List ℚ)
  | quats (qs : List (ℚ × ℚ × ℚ × ℚ))
deriving DecidableEq, Repr

/-- One KLV record: fourcc key and payload (the `KVLItem` of the source). -/
structure KVLItem where
  key : String
  value : Payload
deriving DecidableEq, Repr

/-- Runtime failures of the per-block decoders: Python `KeyError` on a missing
required key, `TypeError` on a payload of the wrong shape, `ValueError` on
unpacking the transposed empty rotation array. -/
inductive DecodeError where
  | missingField (key : String)
  | typeError
  | valueError
deriving DecidableEq, Repr

/-- `true` exactly on the missing-required-key failure. -/
def DecodeError.isMissingField : DecodeError → Bool
  | .missingField _ => true
  | _ => false

/-- Result of `parse_iori_block` (the `IoriData` namedtuple). -/
structure IoriData where
  cts : List ℚ
  z : List ℚ
  y : List ℚ
  x : List ℚ
deriving DecidableEq, Repr

/-- Result of `parse_cori_block` (the `CoriData` namedtuple). -/
structure CoriData where
  cts : List ℚ
  z : List ℚ
  y : List ℚ
  x : List ℚ
deriving DecidableEq, Repr

/-- The four fields of an `IoriData`, for comparisons across result types. -/
def IoriData.fields (d : IoriData) : List ℚ × List ℚ × List ℚ × List ℚ :=
  (d.cts, d.z, d.y, d.x)

/-- The four fields of a `CoriData`, for comparisons across result types. -/
def CoriData.fields (d : CoriData) : List ℚ × List ℚ × List ℚ × List ℚ :=
  (d.cts, d.z, d.y, d.x)

/-- Modelled from the spec: the external rotation-conversion primitive
(`R.from_quat(q).as_euler('zyx', degrees=True)` of scipy, out of scope per the
spec), taking one quaternion sample to its `(z, y, x)` Euler-angle triple. -/
abbrev RotPrim := (ℚ × ℚ × ℚ × ℚ) → ℚ × ℚ × ℚ

/-- The dictionary comprehension `{s.key: s for s in block}` followed by a
lookup of `k`: later records override earlier ones (Python dict last-wins). -/
def block_dict (block : List KVLItem) (k : String) : Option KVLItem :=
  block.foldl (fun acc s => if s.key == k then some s else acc) none

/-- Payload found under key `k` in the last-wins dictionary of `block`. -/
def lookup_value (block : List KVLItem) (k : String) : Option Payload :=
  (block_dict block k).map (fun s => s.value)

/-- One quaternion sample rescaled: componentwise `raw * 1.0 / scale` in true
(non-truncating) division. -/
def qscale (q : ℚ × ℚ × ℚ × ℚ) (s : ℚ) : ℚ × ℚ × ℚ × ℚ :=
  (q.1 * 1 / s, q.2.1 * 1 / s, q.2.2.1 * 1 / s, q.2.2.2 * 1 / s)

/-- `parse_iori_block` of the source: build the last-wins key dictionary,
rescale the `IORI` quaternion samples by the `SCAL` value, convert each to
`(z, y, x)` Euler angles with the external primitive, transpose, and return
`IoriData` with the `STMP` payload passed through unchanged as `cts`. -/
def parse_iori_block (rot : RotPrim) (block : List KVLItem) :
    Except DecodeError IoriData :=
  match block_dict block "IORI" with
  | none => .error (.missingField "IORI")
  | some iori =>
    match block_dict block "SCAL" with
    | none => .error (.missingField "SCAL")
    | some scal =>
      match iori.value, scal.value with
      | .quats qs, .scalar s =>
        let data := qs.map (fun q => qscale q s)
        let rotation := data.map rot
        if rotation.isEmpty then .error .valueError
        else
          match block_dict block "STMP" with
          | none => .error (.missingField "STMP")
          | some stmp =>
            match stmp.value with
            | .vector ts =>
              .ok { cts := ts
                    z := rotation.map (fun r => r.1)
                    y := rotation.map (fun r => r.2.1)
                    x := rotation.map (fun r => r.2.2) }
            | _ => .error .typeError
      | _, _ => .error .typeError

/-- `parse_cori_block` of the source: identical to `parse_iori_block` except
that the quaternion samples are looked up under `CORI` and the result is a
`CoriData`. -/
def parse_cori_block (rot : RotPrim) (block : List KVLItem) :
    Except DecodeError CoriData :=
  match block_dict block "CORI" with
  | none => .error (.missingField "CORI")
  | some cori =>
    match block_dict block "SCAL" with
    | none => .error (.missingField "SCAL")
    | some scal =>
      match cori.value, scal.value with
      | .quats qs, .scalar s =>
        let data := qs.map (fun q => qscale q s)
        let rotation := data.map rot
        if rotation.isEmpty then .error .valueError
        else
          match block_dict block "STMP" with
          | none => .error (.missingField "STMP")
          | some stmp =>
            match stmp.value with
            | .vector ts =>
              .ok { cts := ts
                    z := rotation.map (fun r => r.1)
                    y := rotation.map (fun r => r.2.1)
                    x := rotation.map (fun r => r.2.2) }
            | _ => .error .typeError
      | _, _ => .error .typeError

/-- Modelled from the spec: a single parametrized decode function taking the
quaternion-channel key as configuration (design note of §9), returning the
four result fields; the two source decoders are to be its instances. -/
def parse_orientation_block (fourcc : String) (rot : RotPrim)
    (block : List KVLItem) :
    Except DecodeError (List ℚ × List ℚ × List ℚ × List ℚ) :=
  match block_dict block fourcc with
  | none => .error (.missingField fourcc)
  | some chan =>
    match block_dict block "SCAL" with
    | none => .error (.missingField "SCAL")
    | some scal =>
      match chan.value, scal.value with
      | .quats qs, .scalar s =>
        let data := qs.map (fun q => qscale q s)
        let rotation := data.map rot
        if rotation.isEmpty then .error .valueError
        else
          match block_dict block "STMP" with
          | none => .error (.missingField "STMP")
          | some stmp =>
            match stmp.value with
            | .vector ts =>
              .ok (ts,
                   rotation.map (fun r => r.1),
                   rotation.map (fun r => r.2.1),
                   rotation.map (fun r => r.2.2))
            | _ => .error .typeError
      | _, _ => .error .typeError

/-- The inner loop of `extract_blocks`: append each record of the container to
the accumulation buffer and remember whether any record's key matched. -/
def scan_container (fourcc : String) (elts : List KVLItem) :
    List KVLItem × Bool :=
  elts.foldl (fun st elt => (st.1 ++ [elt], st.2 || (elt.key == fourcc)))
    ([], false)

/-- `extract_blocks` of the source.  The `parse.filter_klv(stream, 'STRM')`
call is external (the `parse` module is not part of this core), so the input
is taken as the sequence of per-container record lists it yields.  For each
container, accumulate every record and flag presence of the target key; yield
the accumulated buffer exactly when the flag is set. -/
def extract_blocks (containers : List (List KVLItem)) (fourcc : String) :
    List (List KVLItem) :=
  containers.filterMap (fun s =>
    let st := scan_container fourcc s
    if st.2 then some st.1 else none)

/-- A rotation primitive usable in concrete computations: projects the first
three quaternion components (distinguishes distinct quaternions componentwise,
as the real scipy conversion distinguishes non-equivalent rotations). -/
def rotProj : RotPrim := fun q => (q.1, q.2.1, q.2.2.1)

/-- Rename every record keyed `ko` to `kn`, leaving other records unchanged
(used to state the key-substitution relation between the two decoders). -/
def substKey (ko kn : String) (block : List KVLItem) : List KVLItem :=
  block.map (fun s => if s.key == ko then { s with key := kn } else s)

/-- Decidable equality for decode outcomes. -/
def exceptDecEq {e a : Type} [DecidableEq e] [DecidableEq a] :
    DecidableEq (Except e a)
  | .error u, .error v =>
    if h : u = v then .isTrue (by rw [h])
    else .isFalse (by intro hc; cases hc; exact h rfl)
  | .error _, .ok _ => .isFalse (by intro hc; cases hc)
  | .ok _, .error _ => .isFalse (by intro hc; cases hc)
  | .ok u, .ok v =>
    if h : u = v then .isTrue (by rw [h])
    else .isFalse (by intro hc; cases hc; exact h rfl)

instance {e a : Type} [DecidableEq e] [DecidableEq a] :
    DecidableEq (Except e a) := exceptDecEq

end GPMF

namespace GPMF

theorem scan_container_eq (fourcc : String) (s : List KVLItem) :
    scan_container fourcc s = (s, s.any (fun e => e.key == fourcc)) := by
  have h : forall (acc : List KVLItem) (b : Bool),
      s.foldl (fun st elt => (st.1 ++ [elt], st.2 || (elt.key == fourcc)))
        (acc, b) = (acc ++ s, b || s.any (fun e => e.key == fourcc)) := by
    induction s with
    | nil => intro acc b; simp
    | cons hd tl ih =>
        intro acc b
        simp only [List.foldl_cons, List.any_cons, ih, List.append_assoc,
          List.singleton_append, Bool.or_assoc]
  simpa [scan_container] using h [] false

theorem extract_blocks_eq_filter (containers : List (List KVLItem))
    (fourcc : String) :
    extract_blocks containers fourcc
      = containers.filter (fun s => s.any (fun e => e.key == fourcc)) := by
  induction containers with
  | nil => rfl
  | cons hd tl ih =>
      simp only [extract_blocks, scan_container_eq] at ih ⊢
      by_cases h : (hd.any (fun e => e.key == fourcc)) = true
      · simp only [List.filterMap_cons, List.filter_cons, h, if_true, ih]
      · rw [Bool.not_eq_true] at h
        simp only [List.filterMap_cons, List.filter_cons, h,
          Bool.false_eq_true, if_false, ih]

theorem except_map_eq_ok {e a b : Type} (f : a → b) (x : Except e a) (v : b) :
    x.map f = .ok v ↔ ∃ u, x = .ok u ∧ f u = v := by
  cases x <;> simp [Except.map]

theorem except_map_eq_error {e a b : Type} (f : a → b) (x : Except e a)
    (err : e) : x.map f = .error err ↔ x = .error err := by
  cases x <;> simp [Except.map]

theorem parse_iori_fields (rot : RotPrim) (block : List KVLItem) :
    (parse_iori_block rot block).map IoriData.fields
      = parse_orientation_block "IORI" rot block := by
  unfold parse_iori_block parse_orientation_block
  repeat' split <;> try rfl
  all_goals simp_all [Except.map, IoriData.fields]
  all_goals (repeat' split <;> try rfl)
  all_goals simp_all
  all_goals (subst_vars; simp)

theorem parse_cori_fields (rot : RotPrim) (block : List KVLItem) :
    (parse_cori_block rot block).map CoriData.fields
      = parse_orientation_block "CORI" rot block := by
  unfold parse_cori_block parse_orientation_block
  repeat' split <;> try rfl
  all_goals simp_all [Except.map, CoriData.fields]
  all_goals (repeat' split <;> try rfl)
  all_goals simp_all
  all_goals (subst_vars; simp)

theorem lookup_value_eq_some (block : List KVLItem) (k : String) (p : Payload) :
    lookup_value block k = some p
      ↔ ∃ it, block_dict block k = some it ∧ it.value = p := by
  simp [lookup_value, Option.map_eq_some']

theorem parse_orientation_ok (fourcc : String) (rot : RotPrim)
    (block : List KVLItem) (qs : List (ℚ × ℚ × ℚ × ℚ)) (s : ℚ) (ts : List ℚ)
    (hq : lookup_value block fourcc = some (.quats qs))
    (hs : lookup_value block "SCAL" = some (.scalar s))
    (ht : lookup_value block "STMP" = some (.vector ts))
    (hne : qs ≠ []) :
    parse_orientation_block fourcc rot block
      = .ok (ts,
             ((qs.map (fun q => qscale q s)).map rot).map (fun r => r.1),
             ((qs.map (fun q => qscale q s)).map rot).map (fun r => r.2.1),
             ((qs.map (fun q => qscale q s)).map rot).map (fun r => r.2.2)) := by
  rcases (lookup_value_eq_some _ _ _).mp hq with ⟨qi, hqi, hqv⟩
  rcases (lookup_value_eq_some _ _ _).mp hs with ⟨si, hsi, hsv⟩
  rcases (lookup_value_eq_some _ _ _).mp ht with ⟨ti, hti, htv⟩
  unfold parse_orientation_block
  rw [hqi, hsi]
  dsimp only
  rw [hqv, hsv]
  dsimp only
  have hemp : ((qs.map (fun q => qscale q s)).map rot).isEmpty = false := by
    cases qs with
    | nil => exact absurd rfl hne
    | cons a l => rfl
  rw [hemp]
  simp only [Bool.false_eq_true, if_false]
  rw [hti]
  dsimp only
  rw [htv]

theorem parse_orientation_missing_channel (fourcc : String) (rot : RotPrim)
    (block : List KVLItem) (h : lookup_value block fourcc = none) :
    parse_orientation_block fourcc rot block
      = .error (.missingField fourcc) := by
  have h2 : block_dict block fourcc = none := by
    simpa [lookup_value] using h
  unfold parse_orientation_block
  rw [h2]

theorem parse_orientation_missing_scal (fourcc : String) (rot : RotPrim)
    (block : List KVLItem) (p : Payload)
    (hq : lookup_value block fourcc = some p)
    (h : lookup_value block "SCAL" = none) :
    parse_orientation_block fourcc rot block
      = .error (.missingField "SCAL") := by
  rcases (lookup_value_eq_some _ _ _).mp hq with ⟨qi, hqi, hqv⟩
  have h2 : block_dict block "SCAL" = none := by
    simpa [lookup_value] using h
  unfold parse_orientation_block
  rw [hqi]
  dsimp only
  rw [h2]

theorem parse_orientation_missing_stmp (fourcc : String) (rot : RotPrim)
    (block : List KVLItem) (qs : List (ℚ × ℚ × ℚ × ℚ)) (s : ℚ)
    (hq : lookup_value block fourcc = some (.quats qs))
    (hs : lookup_value block "SCAL" = some (.scalar s))
    (hne : qs ≠ [])
    (h : lookup_value block "STMP" = none) :
    parse_orientation_block fourcc rot block
      = .error (.missingField "STMP") := by
  rcases (lookup_value_eq_some _ _ _).mp hq with ⟨qi, hqi, hqv⟩
  rcases (lookup_value_eq_some _ _ _).mp hs with ⟨si, hsi, hsv⟩
  have h2 : block_dict block "STMP" = none := by
    simpa [lookup_value] using h
  unfold parse_orientation_block
  rw [hqi, hsi]
  dsimp only
  rw [hqv, hsv]
  dsimp only
  have hemp : ((qs.map (fun q => qscale q s)).map rot).isEmpty = false := by
    cases qs with
    | nil => exact absurd rfl hne
    | cons a l => rfl
  rw [hemp]
  simp only [Bool.false_eq_true, if_false]
  rw [h2]

theorem parse_orientation_empty (fourcc : String) (rot : RotPrim)
    (block : List KVLItem) (s : ℚ)
    (hq : lookup_value block fourcc = some (.quats []))
    (hs : lookup_value block "SCAL" = some (.scalar s)) :
    parse_orientation_block fourcc rot block = .error .valueError := by
  rcases (lookup_value_eq_some _ _ _).mp hq with ⟨qi, hqi, hqv⟩
  rcases (lookup_value_eq_some _ _ _).mp hs with ⟨si, hsi, hsv⟩
  unfold parse_orientation_block
  rw [hqi, hsi]
  dsimp only
  rw [hqv, hsv]
  rfl

theorem parse_orientation_ok_inv (fourcc : String) (rot : RotPrim)
    (block : List KVLItem) (out : List ℚ × List ℚ × List ℚ × List ℚ)
    (h : parse_orientation_block fourcc rot block = .ok out) :
    ∃ qs s ts,
      lookup_value block fourcc = some (.quats qs) ∧ qs ≠ [] ∧
      lookup_value block "SCAL" = some (.scalar s) ∧
      lookup_value block "STMP" = some (.vector ts) ∧
      out = (ts,
             ((qs.map (fun q => qscale q s)).map rot).map (fun r => r.1),
             ((qs.map (fun q => qscale q s)).map rot).map (fun r => r.2.1),
             ((qs.map (fun q => qscale q s)).map rot).map (fun r => r.2.2)) := by
  unfold parse_orientation_block at h
  repeat' split at h <;> try cases h
  all_goals dsimp only at h
  all_goals (repeat' split at h <;> try cases h)
  rename_i x1 qi hqi x2 si hsi p1 p2 qs s hqv hsv x3 ti hti p3 ts htv hne0
  refine ⟨qs, s, ts, ?_, ?_, ?_, ?_, rfl⟩
  · simp [lookup_value, hqi, hqv]
  · intro hc; subst hc; simp at hne0
  · simp [lookup_value, hsi, hsv]
  · simp [lookup_value, hti, htv]

theorem parse_iori_eq_ok_iff (rot : RotPrim) (block : List KVLItem)
    (cts z y x : List ℚ) :
    parse_iori_block rot block = .ok (IoriData.mk cts z y x)
      ↔ parse_orientation_block "IORI" rot block = .ok (cts, z, y, x) := by
  rw [← parse_iori_fields]
  constructor
  · intro h; rw [h]; rfl
  · intro h
    rcases (except_map_eq_ok _ _ _).mp h with ⟨u, hu, hf⟩
    rcases u with ⟨a, b, c, d⟩
    simp [IoriData.fields] at hf
    obtain ⟨h1, h2, h3, h4⟩ := hf
    subst h1; subst h2; subst h3; subst h4
    exact hu

theorem parse_cori_eq_ok_iff (rot : RotPrim) (block : List KVLItem)
    (cts z y x : List ℚ) :
    parse_cori_block rot block = .ok (CoriData.mk cts z y x)
      ↔ parse_orientation_block "CORI" rot block = .ok (cts, z, y, x) := by
  rw [← parse_cori_fields]
  constructor
  · intro h; rw [h]; rfl
  · intro h
    rcases (except_map_eq_ok _ _ _).mp h with ⟨u, hu, hf⟩
    rcases u with ⟨a, b, c, d⟩
    simp [CoriData.fields] at hf
    obtain ⟨h1, h2, h3, h4⟩ := hf
    subst h1; subst h2; subst h3; subst h4
    exact hu

theorem parse_iori_eq_error_iff (rot : RotPrim) (block : List KVLItem)
    (err : DecodeError) :
    parse_iori_block rot block = .error err
      ↔ parse_orientation_block "IORI" rot block = .error err := by
  rw [← parse_iori_fields, except_map_eq_error]

theorem parse_cori_eq_error_iff (rot : RotPrim) (block : List KVLItem)
    (err : DecodeError) :
    parse_cori_block rot block = .error err
      ↔ parse_orientation_block "CORI" rot block = .error err := by
  rw [← parse_cori_fields, except_map_eq_error]

theorem block_dict_substKey_other (ko kn k : String) (hko : k ≠ ko)
    (hkn : k ≠ kn) (b : List KVLItem) :
    block_dict (substKey ko kn b) k = block_dict b k := by
  have h : forall (acc : Option KVLItem),
      (substKey ko kn b).foldl
          (fun acc s => if s.key == k then some s else acc) acc
        = b.foldl (fun acc s => if s.key == k then some s else acc) acc := by
    induction b with
    | nil => intro acc; rfl
    | cons hd tl ih =>
        intro acc
        simp only [substKey, List.map_cons, List.foldl_cons] at ih ⊢
        by_cases hh : hd.key = ko
        · have hx : (if hd.key == ko then { hd with key := kn } else hd)
              = { hd with key := kn } := by simp [hh]
          rw [hx]
          have h1 : (({ hd with key := kn } : KVLItem).key == k) = false := by
            simp [Ne.symm hkn]
          have h2 : (hd.key == k) = false := by
            simp [hh, Ne.symm hko]
          rw [h1, h2]
          simp only [Bool.false_eq_true, if_false]
          exact ih acc
        · have hx : (if hd.key == ko then { hd with key := kn } else hd)
              = hd := by simp [hh]
          rw [hx]
          exact ih _
  exact h none

theorem block_dict_substKey_target (ko kn : String) (b : List KVLItem)
    (hb : ∀ e ∈ b, e.key ≠ kn) :
    block_dict (substKey ko kn b) kn
      = (block_dict b ko).map (fun s => { s with key := kn }) := by
  have h : forall (acc : Option KVLItem),
      (substKey ko kn b).foldl
          (fun acc s => if s.key == kn then some s else acc)
          (acc.map (fun s => { s with key := kn }))
        = (b.foldl (fun acc s => if s.key == ko then some s else acc)
            acc).map (fun s => { s with key := kn }) := by
    induction b with
    | nil => intro acc; rfl
    | cons hd tl ih =>
        intro acc
        have hbtl : ∀ e ∈ tl, e.key ≠ kn := fun e he => hb e (List.mem_cons_of_mem _ he)
        have hbhd : hd.key ≠ kn := hb hd (List.mem_cons_self _ _)
        simp only [substKey, List.map_cons, List.foldl_cons] at *
        by_cases hh : hd.key = ko
        · have hx : (if hd.key == ko then { hd with key := kn } else hd)
              = { hd with key := kn } := by simp [hh]
          rw [hx]
          have h1 : (({ hd with key := kn } : KVLItem).key == kn) = true := by simp
          have h2 : (hd.key == ko) = true := by simp [hh]
          rw [h1, h2]
          simp only [if_true]
          have := ih hbtl (some hd)
          simpa using this
        · have hx : (if hd.key == ko then { hd with key := kn } else hd)
              = hd := by simp [hh]
          rw [hx]
          have h1 : (hd.key == kn) = false := by simp [hbhd]
          have h2 : (hd.key == ko) = false := by simp [hh]
          rw [h1, h2]
          simp only [Bool.false_eq_true, if_false]
          exact ih hbtl acc
  exact h none

theorem parse_orientation_rename (rot : RotPrim) (b : List KVLItem)
    (hno : ∀ e ∈ b, e.key ≠ "IORI") (c : KVLItem)
    (hc : block_dict b "CORI" = some c) :
    parse_orientation_block "IORI" rot (substKey "CORI" "IORI" b)
      = parse_orientation_block "CORI" rot b := by
  have h1 : block_dict (substKey "CORI" "IORI" b) "IORI"
      = some { c with key := "IORI" } := by
    rw [block_dict_substKey_target _ _ _ hno, hc]
    rfl
  have h2 : block_dict (substKey "CORI" "IORI" b) "SCAL"
      = block_dict b "SCAL" :=
    block_dict_substKey_other _ _ _ (by decide) (by decide) _
  have h3 : block_dict (substKey "CORI" "IORI" b) "STMP"
      = block_dict b "STMP" :=
    block_dict_substKey_other _ _ _ (by decide) (by decide) _
  unfold parse_orientation_block
  rw [h1, h2, h3, hc]

end GPMF

namespace GPMF

/-- C3: for every container in the input stream that contains no record whose
key equals the requested channel fourcc, `extract_blocks` yields no block for
that container: deleting such a container from the stream leaves the yielded
sequence unchanged, so a block is emitted only for containers holding the
target key. -/
theorem extract_blocks_keyless_yields_nothing (fourcc : String)
    (pre post : List (List KVLItem)) (c : List KVLItem)
    (h : ∀ e ∈ c, e.key ≠ fourcc) :
    extract_blocks (pre ++ c :: post) fourcc
      = extract_blocks pre fourcc ++ extract_blocks post fourcc := by
  have hc : (c.any fun e => e.key == fourcc) = false := by
    rw [List.any_eq_false]
    intro e he
    simpa using h e he
  simp [extract_blocks_eq_filter, List.filter_append, List.filter_cons, hc]

/-- Witness for C3 at a concrete container carrying only an `ACCL` record. -/
theorem extract_blocks_keyless_yields_nothing_witness :
    (∀ e ∈ [KVLItem.mk "ACCL" (Payload.scalar 0)], e.key ≠ "IORI") ∧
    extract_blocks ([] ++ [KVLItem.mk "ACCL" (Payload.scalar 0)] :: []) "IORI"
      = extract_blocks [] "IORI" ++ extract_blocks [] "IORI" :=
  ⟨by decide,
   extract_blocks_keyless_yields_nothing "IORI" [] []
     [KVLItem.mk "ACCL" (Payload.scalar 0)] (by decide)⟩

/-- C4: for every container whose record sequence contains the target channel
key exactly once, `extract_blocks` yields exactly one block for it, equal to
the container's full record sequence in original order. -/
theorem extract_blocks_unique_key_yields_container (fourcc : String)
    (pre post : List (List KVLItem)) (c : List KVLItem)
    (h : c.countP (fun e => e.key == fourcc) = 1) :
    extract_blocks (pre ++ c :: post) fourcc
      = extract_blocks pre fourcc ++ c :: extract_blocks post fourcc := by
  have hpos : 0 < c.countP (fun e => e.key == fourcc) := by omega
  have hc : (c.any fun e => e.key == fourcc) = true := by
    rw [List.any_eq_true]
    rcases List.countP_pos_iff.mp hpos with ⟨a, ha, hpa⟩
    exact ⟨a, ha, hpa⟩
  simp [extract_blocks_eq_filter, List.filter_append, List.filter_cons, hc]

/-- Witness for C4 at a concrete two-record container with one `IORI` key. -/
theorem extract_blocks_unique_key_yields_container_witness :
    ([KVLItem.mk "SCAL" (Payload.scalar 1),
      KVLItem.mk "IORI" (Payload.quats [])].countP
        (fun e => e.key == "IORI") = 1) ∧
    extract_blocks ([] ++ [KVLItem.mk "SCAL" (Payload.scalar 1),
        KVLItem.mk "IORI" (Payload.quats [])] :: []) "IORI"
      = extract_blocks [] "IORI"
        ++ [KVLItem.mk "SCAL" (Payload.scalar 1),
            KVLItem.mk "IORI" (Payload.quats [])] :: extract_blocks [] "IORI" :=
  ⟨by decide,
   extract_blocks_unique_key_yields_container "IORI" [] [] _ (by decide)⟩

/-- C5: a container in which the target key appears more than once still
yields exactly one block containing all of the container's records — the
detection is presence-based, not count-based. -/
theorem extract_blocks_repeated_key_yields_one_container (fourcc : String)
    (pre post : List (List KVLItem)) (c : List KVLItem)
    (h : 1 < c.countP (fun e => e.key == fourcc)) :
    extract_blocks (pre ++ c :: post) fourcc
      = extract_blocks pre fourcc ++ c :: extract_blocks post fourcc := by
  have hpos : 0 < c.countP (fun e => e.key == fourcc) := by omega
  have hc : (c.any fun e => e.key == fourcc) = true := by
    rw [List.any_eq_true]
    rcases List.countP_pos_iff.mp hpos with ⟨a, ha, hpa⟩
    exact ⟨a, ha, hpa⟩
  simp [extract_blocks_eq_filter, List.filter_append, List.filter_cons, hc]

/-- Witness for C5 at a concrete container holding two `IORI` records. -/
theorem extract_blocks_repeated_key_yields_one_container_witness :
    (1 < [KVLItem.mk "IORI" (Payload.quats []),
          KVLItem.mk "IORI" (Payload.quats [])].countP
        (fun e => e.key == "IORI")) ∧
    extract_blocks ([] ++ [KVLItem.mk "IORI" (Payload.quats []),
        KVLItem.mk "IORI" (Payload.quats [])] :: []) "IORI"
      = extract_blocks [] "IORI"
        ++ [KVLItem.mk "IORI" (Payload.quats []),
            KVLItem.mk "IORI" (Payload.quats [])] :: extract_blocks [] "IORI" :=
  ⟨by decide,
   extract_blocks_repeated_key_yields_one_container "IORI" [] [] _ (by decide)⟩

/-- C9: decoding is a pure function of the block: two invocations of
`parse_iori_block` (respectively `parse_cori_block`) on the same block yield
identical output; no state outside the arguments is read or written (the
embedding of both decoders is stateless by construction, matching the source,
which reads only its argument). -/
theorem decode_pure_deterministic (rot : RotPrim) (b1 b2 : List KVLItem)
    (h : b1 = b2) :
    parse_iori_block rot b1 = parse_iori_block rot b2 ∧
    parse_cori_block rot b1 = parse_cori_block rot b2 := by
  subst h
  exact ⟨rfl, rfl⟩

/-- Witness for C9 at a concrete block. -/
theorem decode_pure_deterministic_witness :
    parse_iori_block rotProj [KVLItem.mk "SCAL" (Payload.scalar 1)]
      = parse_iori_block rotProj [KVLItem.mk "SCAL" (Payload.scalar 1)] ∧
    parse_cori_block rotProj [KVLItem.mk "SCAL" (Payload.scalar 1)]
      = parse_cori_block rotProj [KVLItem.mk "SCAL" (Payload.scalar 1)] :=
  decode_pure_deterministic rotProj _ _ rfl

/-- C1 counterexample: a block whose `STMP` record supplies three timestamps
while the `IORI` record supplies two quaternion samples decodes successfully,
with `len(cts) = 3` but `len(z) = 2`: the decoded field lengths do NOT all
agree when the independently supplied records disagree. -/
theorem decoded_lengths_disagree_counterexample :
    parse_iori_block rotProj
      [KVLItem.mk "SCAL" (Payload.scalar 1),
       KVLItem.mk "STMP" (Payload.vector [0, 1, 2]),
       KVLItem.mk "IORI" (Payload.quats [(0, 0, 0, 1), (0, 0, 0, 1)])]
      = .ok (IoriData.mk [0, 1, 2] [0, 0] [0, 0] [0, 0]) ∧
    (IoriData.mk ([0, 1, 2] : List ℚ) [0, 0] [0, 0] [0, 0]).cts.length
      ≠ (IoriData.mk ([0, 1, 2] : List ℚ) [0, 0] [0, 0] [0, 0]).z.length := by
  refine ⟨?_, by decide⟩
  simp [parse_iori_block, block_dict, qscale, rotProj]

/-- C1 (amended): for every successful decode, `len(z) = len(y) = len(x)` and
all three equal the number of quaternion samples; `len(cts)` equals them only
when the `STMP` record happens to supply the same count, which is not
checked. -/
theorem decoded_angle_lengths_agree (rot : RotPrim) (block : List KVLItem) :
    (∀ r, parse_iori_block rot block = .ok r →
       r.z.length = r.y.length ∧ r.y.length = r.x.length ∧
       ∃ qs, lookup_value block "IORI" = some (.quats qs) ∧
         r.z.length = qs.length) ∧
    (∀ r, parse_cori_block rot block = .ok r →
       r.z.length = r.y.length ∧ r.y.length = r.x.length ∧
       ∃ qs, lookup_value block "CORI" = some (.quats qs) ∧
         r.z.length = qs.length) := by
  constructor
  · intro r h
    have hf : parse_orientation_block "IORI" rot block = .ok r.fields := by
      rw [← parse_iori_fields, h]
      rfl
    rcases parse_orientation_ok_inv _ _ _ _ hf with
      ⟨qs, s, ts, hq, hne, hs, ht, hout⟩
    rcases r with ⟨cts, z, y, x⟩
    simp only [IoriData.fields, Prod.mk.injEq] at hout
    obtain ⟨h1, h2, h3, h4⟩ := hout
    subst h2
    subst h3
    subst h4
    exact ⟨by simp, by simp, qs, hq, by simp⟩
  · intro r h
    have hf : parse_orientation_block "CORI" rot block = .ok r.fields := by
      rw [← parse_cori_fields, h]
      rfl
    rcases parse_orientation_ok_inv _ _ _ _ hf with
      ⟨qs, s, ts, hq, hne, hs, ht, hout⟩
    rcases r with ⟨cts, z, y, x⟩
    simp only [CoriData.fields, Prod.mk.injEq] at hout
    obtain ⟨h1, h2, h3, h4⟩ := hout
    subst h2
    subst h3
    subst h4
    exact ⟨by simp, by simp, qs, hq, by simp⟩

/-- Witness for the amended C1 at a concrete successfully decoding block. -/
theorem decoded_angle_lengths_agree_witness :
    parse_iori_block rotProj
      [KVLItem.mk "SCAL" (Payload.scalar 1),
       KVLItem.mk "STMP" (Payload.vector [0, 1, 2]),
       KVLItem.mk "IORI" (Payload.quats [(0, 0, 0, 1), (0, 0, 0, 1)])]
      = .ok (IoriData.mk [0, 1, 2] [0, 0] [0, 0] [0, 0]) ∧
    ((IoriData.mk ([0, 1, 2] : List ℚ) [0, 0] [0, 0] [0, 0]).z.length
        = (IoriData.mk ([0, 1, 2] : List ℚ) [0, 0] [0, 0] [0, 0]).y.length ∧
     (IoriData.mk ([0, 1, 2] : List ℚ) [0, 0] [0, 0] [0, 0]).y.length
        = (IoriData.mk ([0, 1, 2] : List ℚ) [0, 0] [0, 0] [0, 0]).x.length ∧
     ∃ qs, lookup_value
         [KVLItem.mk "SCAL" (Payload.scalar 1),
          KVLItem.mk "STMP" (Payload.vector [0, 1, 2]),
          KVLItem.mk "IORI" (Payload.quats [(0, 0, 0, 1), (0, 0, 0, 1)])]
         "IORI" = some (.quats qs) ∧
       (IoriData.mk ([0, 1, 2] : List ℚ) [0, 0] [0, 0] [0, 0]).z.length
         = qs.length) :=
  have h : parse_iori_block rotProj
      [KVLItem.mk "SCAL" (Payload.scalar 1),
       KVLItem.mk "STMP" (Payload.vector [0, 1, 2]),
       KVLItem.mk "IORI" (Payload.quats [(0, 0, 0, 1), (0, 0, 0, 1)])]
      = .ok (IoriData.mk [0, 1, 2] [0, 0] [0, 0] [0, 0]) := by
    simp [parse_iori_block, block_dict, qscale, rotProj]
  ⟨h, (decoded_angle_lengths_agree rotProj _).1 _ h⟩

/-- C2 counterexample: a block whose `STMP` record is absent but whose `IORI`
record holds zero quaternion samples fails with the empty-unpack `ValueError`,
not with `MissingFieldError`: the decode fails, but not always with the
missing-field error the claim names. -/
theorem missing_stmp_empty_quats_counterexample :
    parse_iori_block rotProj
      [KVLItem.mk "IORI" (Payload.quats []),
       KVLItem.mk "SCAL" (Payload.scalar 1)]
      = .error .valueError ∧
    DecodeError.valueError.isMissingField = false := by
  exact ⟨by decide, by decide⟩

/-- C2 (amended): whenever a required record (`SCAL`, `STMP`, or the variant
quaternion record) is absent, the decode fails and never returns a (partial)
result; the failure is `MissingFieldError` when the quaternion record is
absent, when `SCAL` is absent (quaternion record present), and when `STMP` is
absent while the quaternion record holds a nonempty sample list and `SCAL` a
scalar — but an absent `STMP` behind an empty quaternion record is preempted
by the empty-unpack `ValueError`. -/
theorem missing_required_key_fails (rot : RotPrim) (block : List KVLItem) :
    ((lookup_value block "IORI" = none ∨ lookup_value block "SCAL" = none ∨
        lookup_value block "STMP" = none) →
      ∀ r, parse_iori_block rot block ≠ .ok r) ∧
    (lookup_value block "IORI" = none →
      parse_iori_block rot block = .error (.missingField "IORI")) ∧
    (∀ p, lookup_value block "IORI" = some p →
      lookup_value block "SCAL" = none →
      parse_iori_block rot block = .error (.missingField "SCAL")) ∧
    (∀ qs s, lookup_value block "IORI" = some (.quats qs) → qs ≠ [] →
      lookup_value block "SCAL" = some (.scalar s) →
      lookup_value block "STMP" = none →
      parse_iori_block rot block = .error (.missingField "STMP")) ∧
    ((lookup_value block "CORI" = none ∨ lookup_value block "SCAL" = none ∨
        lookup_value block "STMP" = none) →
      ∀ r, parse_cori_block rot block ≠ .ok r) ∧
    (lookup_value block "CORI" = none →
      parse_cori_block rot block = .error (.missingField "CORI")) ∧
    (∀ p, lookup_value block "CORI" = some p →
      lookup_value block "SCAL" = none →
      parse_cori_block rot block = .error (.missingField "SCAL")) ∧
    (∀ qs s, lookup_value block "CORI" = some (.quats qs) → qs ≠ [] →
      lookup_value block "SCAL" = some (.scalar s) →
      lookup_value block "STMP" = none →
      parse_cori_block rot block = .error (.missingField "STMP")) := by
  refine ⟨?_, ?_, ?_, ?_, ?_, ?_, ?_, ?_⟩
  · intro hmiss r hok
    have hf : parse_orientation_block "IORI" rot block = .ok r.fields := by
      rw [← parse_iori_fields, hok]
      rfl
    rcases parse_orientation_ok_inv _ _ _ _ hf with
      ⟨qs, s, ts, hq, hne, hs, ht, hout⟩
    rcases hmiss with hm | hm | hm <;> simp [hm] at hq hs ht
  · intro h
    exact (parse_iori_eq_error_iff _ _ _).mpr
      (parse_orientation_missing_channel _ _ _ h)
  · intro p hq h
    exact (parse_iori_eq_error_iff _ _ _).mpr
      (parse_orientation_missing_scal _ _ _ p hq h)
  · intro qs s hq hne hs h
    exact (parse_iori_eq_error_iff _ _ _).mpr
      (parse_orientation_missing_stmp _ _ _ qs s hq hs hne h)
  · intro hmiss r hok
    have hf : parse_orientation_block "CORI" rot block = .ok r.fields := by
      rw [← parse_cori_fields, hok]
      rfl
    rcases parse_orientation_ok_inv _ _ _ _ hf with
      ⟨qs, s, ts, hq, hne, hs, ht, hout⟩
    rcases hmiss with hm | hm | hm <;> simp [hm] at hq hs ht
  · intro h
    exact (parse_cori_eq_error_iff _ _ _).mpr
      (parse_orientation_missing_channel _ _ _ h)
  · intro p hq h
    exact (parse_cori_eq_error_iff _ _ _).mpr
      (parse_orientation_missing_scal _ _ _ p hq h)
  · intro qs s hq hne hs h
    exact (parse_cori_eq_error_iff _ _ _).mpr
      (parse_orientation_missing_stmp _ _ _ qs s hq hs hne h)

/-- Witness for the amended C2: a block lacking `SCAL` decodes to the
missing-field error. -/
theorem missing_required_key_fails_witness :
    lookup_value [KVLItem.mk "IORI" (Payload.quats [(0, 0, 0, 1)])] "IORI"
      = some (Payload.quats [(0, 0, 0, 1)]) ∧
    lookup_value [KVLItem.mk "IORI" (Payload.quats [(0, 0, 0, 1)])] "SCAL"
      = none ∧
    parse_iori_block rotProj [KVLItem.mk "IORI" (Payload.quats [(0, 0, 0, 1)])]
      = .error (.missingField "SCAL") :=
  ⟨by decide, by decide,
   (missing_required_key_fails rotProj
       [KVLItem.mk "IORI" (Payload.quats [(0, 0, 0, 1)])]).2.2.1
     (Payload.quats [(0, 0, 0, 1)]) (by decide) (by decide)⟩

/-- C6: with the required records present, the decoders compute the physical
quaternion samples as `raw * 1.0 / scale`, the scalar scale broadcast over
every sample and every one of the 4 components, in true (non-truncating)
division — modelled by exact rational division, so integer-typed raw values
and scale still divide without integer truncation. -/
theorem rescale_is_true_division (rot : RotPrim) (block : List KVLItem)
    (qs : List (ℚ × ℚ × ℚ × ℚ)) (s : ℚ) (ts : List ℚ) (hne : qs ≠ []) :
    (lookup_value block "IORI" = some (.quats qs) →
      lookup_value block "SCAL" = some (.scalar s) →
      lookup_value block "STMP" = some (.vector ts) →
      parse_iori_block rot block = .ok (IoriData.mk ts
        (((qs.map (fun q => (q.1 * 1 / s, q.2.1 * 1 / s, q.2.2.1 * 1 / s,
            q.2.2.2 * 1 / s))).map rot).map (fun r => r.1))
        (((qs.map (fun q => (q.1 * 1 / s, q.2.1 * 1 / s, q.2.2.1 * 1 / s,
            q.2.2.2 * 1 / s))).map rot).map (fun r => r.2.1))
        (((qs.map (fun q => (q.1 * 1 / s, q.2.1 * 1 / s, q.2.2.1 * 1 / s,
            q.2.2.2 * 1 / s))).map rot).map (fun r => r.2.2)))) ∧
    (lookup_value block "CORI" = some (.quats qs) →
      lookup_value block "SCAL" = some (.scalar s) →
      lookup_value block "STMP" = some (.vector ts) →
      parse_cori_block rot block = .ok (CoriData.mk ts
        (((qs.map (fun q => (q.1 * 1 / s, q.2.1 * 1 / s, q.2.2.1 * 1 / s,
            q.2.2.2 * 1 / s))).map rot).map (fun r => r.1))
        (((qs.map (fun q => (q.1 * 1 / s, q.2.1 * 1 / s, q.2.2.1 * 1 / s,
            q.2.2.2 * 1 / s))).map rot).map (fun r => r.2.1))
        (((qs.map (fun q => (q.1 * 1 / s, q.2.1 * 1 / s, q.2.2.1 * 1 / s,
            q.2.2.2 * 1 / s))).map rot).map (fun r => r.2.2)))) := by
  constructor
  · intro hq hs ht
    exact (parse_iori_eq_ok_iff _ _ _ _ _ _).mpr
      (parse_orientation_ok "IORI" rot block qs s ts hq hs ht hne)
  · intro hq hs ht
    exact (parse_cori_eq_ok_iff _ _ _ _ _ _).mpr
      (parse_orientation_ok "CORI" rot block qs s ts hq hs ht hne)

/-- Witness for C6: integer raw sample `(1, 1, 1, 1)` with integer scale `2`
decodes to the non-integral angles `1/2` — true division, no truncation. -/
theorem rescale_is_true_division_witness :
    lookup_value [KVLItem.mk "SCAL" (Payload.scalar 2),
        KVLItem.mk "STMP" (Payload.vector [0]),
        KVLItem.mk "IORI" (Payload.quats [(1, 1, 1, 1)])] "IORI"
      = some (Payload.quats [(1, 1, 1, 1)]) ∧
    parse_iori_block rotProj
      [KVLItem.mk "SCAL" (Payload.scalar 2),
       KVLItem.mk "STMP" (Payload.vector [0]),
       KVLItem.mk "IORI" (Payload.quats [(1, 1, 1, 1)])]
      = .ok (IoriData.mk [0] [1/2] [1/2] [1/2]) :=
  ⟨by decide, by
    rw [(rescale_is_true_division rotProj
        [KVLItem.mk "SCAL" (Payload.scalar 2),
         KVLItem.mk "STMP" (Payload.vector [0]),
         KVLItem.mk "IORI" (Payload.quats [(1, 1, 1, 1)])]
        [(1, 1, 1, 1)] 2 [0] (by decide)).1
      (by decide) (by decide) (by decide)]
    norm_num [rotProj]⟩

/-- C8: for every successfully decoded block, the `cts` field equals the
`STMP` record's raw payload unchanged — no scaling or unit conversion is
applied to timestamps. -/
theorem cts_is_raw_stmp (rot : RotPrim) (block : List KVLItem) :
    (∀ r, parse_iori_block rot block = .ok r →
       ∃ ts, lookup_value block "STMP" = some (.vector ts) ∧ r.cts = ts) ∧
    (∀ r, parse_cori_block rot block = .ok r →
       ∃ ts, lookup_value block "STMP" = some (.vector ts) ∧ r.cts = ts) := by
  constructor
  · intro r h
    have hf : parse_orientation_block "IORI" rot block = .ok r.fields := by
      rw [← parse_iori_fields, h]
      rfl
    rcases parse_orientation_ok_inv _ _ _ _ hf with
      ⟨qs, s, ts, hq, hne, hs, ht, hout⟩
    rcases r with ⟨cts, z, y, x⟩
    simp only [IoriData.fields, Prod.mk.injEq] at hout
    exact ⟨ts, ht, hout.1⟩
  · intro r h
    have hf : parse_orientation_block "CORI" rot block = .ok r.fields := by
      rw [← parse_cori_fields, h]
      rfl
    rcases parse_orientation_ok_inv _ _ _ _ hf with
      ⟨qs, s, ts, hq, hne, hs, ht, hout⟩
    rcases r with ⟨cts, z, y, x⟩
    simp only [CoriData.fields, Prod.mk.injEq] at hout
    exact ⟨ts, ht, hout.1⟩

/-- Witness for C8 at a concrete successfully decoding block. -/
theorem cts_is_raw_stmp_witness :
    parse_iori_block rotProj
      [KVLItem.mk "SCAL" (Payload.scalar 1),
       KVLItem.mk "STMP" (Payload.vector [5, 7]),
       KVLItem.mk "IORI" (Payload.quats [(0, 0, 0, 1)])]
      = .ok (IoriData.mk [5, 7] [0] [0] [0]) ∧
    ∃ ts, lookup_value
        [KVLItem.mk "SCAL" (Payload.scalar 1),
         KVLItem.mk "STMP" (Payload.vector [5, 7]),
         KVLItem.mk "IORI" (Payload.quats [(0, 0, 0, 1)])] "STMP"
      = some (.vector ts) ∧ (IoriData.mk ([5, 7] : List ℚ) [0] [0] [0]).cts = ts :=
  have h : parse_iori_block rotProj
      [KVLItem.mk "SCAL" (Payload.scalar 1),
       KVLItem.mk "STMP" (Payload.vector [5, 7]),
       KVLItem.mk "IORI" (Payload.quats [(0, 0, 0, 1)])]
      = .ok (IoriData.mk [5, 7] [0] [0] [0]) := by
    simp [parse_iori_block, block_dict, qscale, rotProj]
  ⟨h, (cts_is_raw_stmp rotProj _).1 _ h⟩

/-- C10: the decoders guard only against absent required keys, never against a
zero (or otherwise invalid) scale value: a block whose `SCAL` value is zero,
with all required records present, still decodes successfully — no error
branch guards the division (numpy emits infinities rather than raising). -/
theorem zero_scale_unguarded (rot : RotPrim) (block : List KVLItem) :
    (∀ qs ts, lookup_value block "IORI" = some (.quats qs) → qs ≠ [] →
       lookup_value block "SCAL" = some (.scalar 0) →
       lookup_value block "STMP" = some (.vector ts) →
       ∃ r, parse_iori_block rot block = .ok r) ∧
    (∀ qs ts, lookup_value block "CORI" = some (.quats qs) → qs ≠ [] →
       lookup_value block "SCAL" = some (.scalar 0) →
       lookup_value block "STMP" = some (.vector ts) →
       ∃ r, parse_cori_block rot block = .ok r) := by
  constructor
  · intro qs ts hq hne hs ht
    exact ⟨_, (parse_iori_eq_ok_iff _ _ _ _ _ _).mpr
      (parse_orientation_ok "IORI" rot block qs 0 ts hq hs ht hne)⟩
  · intro qs ts hq hne hs ht
    exact ⟨_, (parse_cori_eq_ok_iff _ _ _ _ _ _).mpr
      (parse_orientation_ok "CORI" rot block qs 0 ts hq hs ht hne)⟩

/-- Witness for C10 at a concrete block with `SCAL = 0`. -/
theorem zero_scale_unguarded_witness :
    lookup_value [KVLItem.mk "SCAL" (Payload.scalar 0),
        KVLItem.mk "STMP" (Payload.vector [0]),
        KVLItem.mk "IORI" (Payload.quats [(1, 2, 3, 4)])] "SCAL"
      = some (Payload.scalar 0) ∧
    ∃ r, parse_iori_block rotProj
      [KVLItem.mk "SCAL" (Payload.scalar 0),
       KVLItem.mk "STMP" (Payload.vector [0]),
       KVLItem.mk "IORI" (Payload.quats [(1, 2, 3, 4)])] = .ok r :=
  ⟨by decide,
   (zero_scale_unguarded rotProj
       [KVLItem.mk "SCAL" (Payload.scalar 0),
        KVLItem.mk "STMP" (Payload.vector [0]),
        KVLItem.mk "IORI" (Payload.quats [(1, 2, 3, 4)])]).1
     [(1, 2, 3, 4)] [0] (by decide) (by decide) (by decide) (by decide)⟩

/-- C7 counterexample: on a block containing records under BOTH keys, `CORI`
and `IORI`, substituting the key `IORI` for `CORI` merges the two channels in
the last-wins dictionary, and the two decoders disagree: `parse_cori_block`
reads the `CORI` quaternion while the substituted block hands
`parse_iori_block` the originally-`IORI` quaternion. -/
theorem key_substitution_counterexample :
    parse_cori_block rotProj
      [KVLItem.mk "CORI" (Payload.quats [(1, 0, 0, 0)]),
       KVLItem.mk "IORI" (Payload.quats [(0, 0, 0, 1)]),
       KVLItem.mk "SCAL" (Payload.scalar 1),
       KVLItem.mk "STMP" (Payload.vector [0])]
      = .ok (CoriData.mk [0] [1] [0] [0]) ∧
    parse_iori_block rotProj (substKey "CORI" "IORI"
      [KVLItem.mk "CORI" (Payload.quats [(1, 0, 0, 0)]),
       KVLItem.mk "IORI" (Payload.quats [(0, 0, 0, 1)]),
       KVLItem.mk "SCAL" (Payload.scalar 1),
       KVLItem.mk "STMP" (Payload.vector [0])])
      = .ok (IoriData.mk [0] [0] [0] [0]) ∧
    (CoriData.mk ([0] : List ℚ) [1] [0] [0]).fields
      ≠ (IoriData.mk ([0] : List ℚ) [0] [0] [0]).fields := by
  refine ⟨?_, ?_, by decide⟩
  · simp [parse_cori_block, block_dict, qscale, rotProj]
  · simp [parse_iori_block, substKey, block_dict, qscale, rotProj]

/-- C7 (amended): the two decoders are instances of one parametrized decode
algorithm differing only in the quaternion-channel key; and for every block
that carries no `IORI` record of its own, substituting the key `IORI` for
`CORI` makes the two decoders produce results with identical `cts`, `z`, `y`,
`x` fields. -/
theorem decoders_one_parametrized_algorithm (rot : RotPrim)
    (block : List KVLItem) :
    (parse_iori_block rot block).map IoriData.fields
      = parse_orientation_block "IORI" rot block ∧
    (parse_cori_block rot block).map CoriData.fields
      = parse_orientation_block "CORI" rot block ∧
    ((∀ e ∈ block, e.key ≠ "IORI") →
      ∀ r, parse_cori_block rot block = .ok r →
        parse_iori_block rot (substKey "CORI" "IORI" block)
          = .ok (IoriData.mk r.cts r.z r.y r.x)) := by
  refine ⟨parse_iori_fields rot block, parse_cori_fields rot block, ?_⟩
  intro hno r hok
  have hgen : parse_orientation_block "CORI" rot block = .ok r.fields := by
    rw [← parse_cori_fields, hok]
    rfl
  rcases parse_orientation_ok_inv _ _ _ _ hgen with
    ⟨qs, s, ts, hq, hne, hs, ht, hout⟩
  rcases (lookup_value_eq_some _ _ _).mp hq with ⟨c, hc, hcv⟩
  have hren := parse_orientation_rename rot block hno c hc
  have hy : parse_orientation_block "IORI" rot (substKey "CORI" "IORI" block)
      = .ok r.fields := by rw [hren, hgen]
  rcases r with ⟨cts, z, y, x⟩
  exact (parse_iori_eq_ok_iff _ _ _ _ _ _).mpr hy

/-- Witness for the amended C7 at a concrete `CORI`-only block. -/
theorem decoders_one_parametrized_algorithm_witness :
    (∀ e ∈ [KVLItem.mk "CORI" (Payload.quats [(0, 0, 0, 1)]),
        KVLItem.mk "SCAL" (Payload.scalar 1),
        KVLItem.mk "STMP" (Payload.vector [0])], e.key ≠ "IORI") ∧
    parse_cori_block rotProj
      [KVLItem.mk "CORI" (Payload.quats [(0, 0, 0, 1)]),
       KVLItem.mk "SCAL" (Payload.scalar 1),
       KVLItem.mk "STMP" (Payload.vector [0])]
      = .ok (CoriData.mk [0] [0] [0] [0]) ∧
    parse_iori_block rotProj (substKey "CORI" "IORI"
      [KVLItem.mk "CORI" (Payload.quats [(0, 0, 0, 1)]),
       KVLItem.mk "SCAL" (Payload.scalar 1),
       KVLItem.mk "STMP" (Payload.vector [0])])
      = .ok (IoriData.mk [0] [0] [0] [0]) :=
  have h : parse_cori_block rotProj
      [KVLItem.mk "CORI" (Payload.quats [(0, 0, 0, 1)]),
       KVLItem.mk "SCAL" (Payload.scalar 1),
       KVLItem.mk "STMP" (Payload.vector [0])]
      = .ok (CoriData.mk [0] [0] [0] [0]) := by
    simp [parse_cori_block, block_dict, qscale, rotProj]
  ⟨by decide, h,
   (decoders_one_parametrized_algorithm rotProj _).2.2 (by decide) _ h⟩

end GPMF
